import Mathlib

/-
Verification of the exazk coordination engine (src/exazk.py).

The Python source is shallowly embedded: stateful methods become pure
functions from an explicit runtime state to a new state plus a trace of
observable effects (stdout lines and ZooKeeper ephemeral-create attempts).
External nondeterminism (the health probe outcome, the ZooKeeper child set,
the result of zk.create) is supplied as an explicit input to each step.
-/

/-- Outcome of running the local check command: either the child process
exits with status `rc` within the 1-second alarm deadline, or the alarm
fires first (timeout). -/
inductive ProbeOutcome where
  | exited (rc : Int)
  | timeout
deriving DecidableEq, Repr

/-- Observable result of `ServiceChecker.check`: the returned boolean,
whether the process group was killed with SIGKILL, and the exit code
logged at ERROR level (when non-zero). -/
structure CheckResult where
  ok : Bool
  killedGroup : Bool
  loggedExit : Option Int
deriving DecidableEq, Repr

/-- Embeds the ServiceChecker class: it carries the configured shell
command. -/
structure ServiceChecker where
  command : String
deriving DecidableEq, Repr

/-- Embeds `ServiceChecker.check` (src/exazk.py lines 27-48).  The command
is started in its own process group with a 1-second SIGALRM deadline.
If `p.wait()` returns 0 the method returns True; on a non-zero return
code it logs the code and returns False; if the Alarm fires the whole
process group gets SIGKILL and the method returns False. -/
def ServiceChecker.check (self : ServiceChecker) (o : ProbeOutcome) : CheckResult :=
  match o with
  | ProbeOutcome.exited rc =>
      if rc = 0 then { ok := true, killedGroup := false, loggedExit := none }
      else { ok := false, killedGroup := false, loggedExit := some rc }
  | ProbeOutcome.timeout => { ok := false, killedGroup := true, loggedExit := none }

/-- A route record as stored in `BGPTable.announce`: in the Python source
it is a dict that passed the mandatory-field check, so all three fields
are present.  The Python key named after the route prefix is spelled
`pfx` here because its original spelling is a reserved word in Lean. -/
structure Route where
  pfx : String
  dst : String
  metric : Nat
deriving DecidableEq, Repr

/-- A route given as keyword arguments, before validation: any of the
three mandatory keys may be missing. -/
structure RouteArgs where
  pfx : Option String
  dst : Option String
  metric : Option Nat
deriving DecidableEq, Repr

/-- Embeds the BGPTable class: an ordered list of announce routes. -/
structure BGPTable where
  announce : List Route
deriving DecidableEq, Repr

/-- The error message raised by `add_route` and `withdraw_route` when a
mandatory key is missing. -/
def mandatoryErr : String := "prefix, dst & metric are mandatory in route"

/-- Embeds `BGPTable.add_route` (lines 54-58): raises unless all of the
route prefix, dst and metric keys are present, otherwise appends the
route to the announce list. -/
def BGPTable.add_route (t : BGPTable) (r : RouteArgs) : Except String BGPTable :=
  match r.pfx, r.dst, r.metric with
  | some p, some d, some m => Except.ok (BGPTable.mk (t.announce ++ [Route.mk p d m]))
  | _, _, _ => Except.error mandatoryErr

/-- Embeds `BGPTable.get_routes` (lines 60-61). -/
def BGPTable.get_routes (t : BGPTable) : List Route := t.announce

/-- The announce line printed by `BGPSpeaker.advertise_routes` for one
route (line 75-76). -/
def announceLine (r : Route) : String :=
  "announce route " ++ r.pfx ++ "/32 next-hop self med " ++ toString r.metric

/-- The withdraw line printed by `BGPSpeaker.withdraw_route` for one
route (lines 83-84). -/
def withdrawLine (r : Route) : String :=
  "withdraw route " ++ r.pfx ++ "/32 next-hop self med " ++ toString r.metric

/-- Embeds `BGPSpeaker.advertise_routes` (lines 71-77): prints one
announce line per route of the table, in table order, then flushes. -/
def advertise_routes (t : BGPTable) : List String :=
  t.get_routes.map announceLine

/-- Embeds `BGPSpeaker.withdraw_route` (lines 79-85): raises unless all
of the route prefix, dst and metric keys are present; otherwise prints
exactly one withdraw line and flushes. -/
def withdraw_route (r : RouteArgs) : Except String (List String) :=
  match r.pfx, r.dst, r.metric with
  | some p, some d, some m => Except.ok [withdrawLine (Route.mk p d m)]
  | _, _, _ => Except.error mandatoryErr

/-- Embeds the EZKConf record: the configuration keys read by the core. -/
structure EZKConf where
  zk_hosts : List String
  zk_path_service : String
  srv_name : String
  srv_auth_ip : String
  srv_non_auth_ips : List String
  local_check : String
deriving DecidableEq, Repr

/-- Embeds the mutable fields of EZKRuntime that the control loop and the
callbacks read and write (lines 108-113). -/
structure RuntimeState where
  bgp_table : BGPTable
  refresh : Bool
  recreate : Bool
  shouldstop : Bool
deriving DecidableEq, Repr

/-- Embeds `EZKRuntime.__init__` (lines 98-117): the table starts empty,
`refresh` and `recreate` start True and `shouldstop` starts False. -/
def initRuntime : RuntimeState :=
  { bgp_table := BGPTable.mk [], refresh := true, recreate := true, shouldstop := false }

/-- An observable effect of one step: a line written to stdout, or a call
to `zk.create` with the given path (ephemeral=True). -/
inductive Event where
  | line (s : String)
  | zkCreate (path : String)
deriving DecidableEq, Repr

/-- Projects the stdout line out of an event, if it is one. -/
def Event.lineOf : Event → Option String
  | Event.line s => some s
  | Event.zkCreate _ => none

/-- The stdout lines of a trace, in order. -/
def stdoutOf (evs : List Event) : List String :=
  evs.filterMap Event.lineOf

/-- Result of the `zk.create` call inside `create_node`: success, a
SessionExpiredError, or any other exception (which propagates). -/
inductive ZkCreateResult where
  | ok
  | sessionExpired
  | fatal (msg : String)
deriving DecidableEq, Repr

/-- The full path of the ephemeral membership znode, as formatted at
lines 139-142. -/
def nodePath (c : EZKConf) : String :=
  c.zk_path_service ++ "/" ++ c.srv_name ++ "/" ++ c.srv_auth_ip

/-- Outcome of a step that may let an exception propagate: the runtime
state after the mutations that did happen, the trace of effects, and the
propagated exception if any (fatal to the control loop). -/
structure StepOut where
  st : RuntimeState
  events : List Event
  err : Option String
deriving DecidableEq, Repr

/-- Embeds `EZKRuntime.create_node` (lines 134-144): first sets
`recreate` to False, then calls `zk.create` on the full membership path.
A SessionExpiredError is caught and re-sets `recreate`; any other
exception propagates with `recreate` left cleared. -/
def create_node (c : EZKConf) (s : RuntimeState) (zk : ZkCreateResult) : StepOut :=
  let s1 : RuntimeState := { s with recreate := false }
  match zk with
  | ZkCreateResult.ok =>
      { st := s1, events := [Event.zkCreate (nodePath c)], err := none }
  | ZkCreateResult.sessionExpired =>
      { st := { s1 with recreate := true }, events := [Event.zkCreate (nodePath c)], err := none }
  | ZkCreateResult.fatal msg =>
      { st := s1, events := [Event.zkCreate (nodePath c)], err := some msg }

/-- The route added for a non-auth IP this node volunteers to carry
(line 157). -/
def nonAuthRoute (ip : String) : Route := Route.mk ip "1.1.1.1" 200

/-- The route added for the auth IP (lines 161-162). -/
def authRoute (c : EZKConf) : Route := Route.mk c.srv_auth_ip "1.1.1.1" 100

/-- The body of the for-loop of `refresh_children` (lines 155-159): walks
`srv_non_auth_ips` in order; an IP absent from the child set is added to
the new table with metric 200, an IP present in the child set gets an
immediate withdraw line with metric 200. -/
def reconcileRoutes (children : List String) : List String → List Route × List Event
  | [] => ([], [])
  | ip :: rest =>
      let acc := reconcileRoutes children rest
      if ip ∈ children then
        (acc.1, Event.line (withdrawLine (nonAuthRoute ip)) :: acc.2)
      else
        (nonAuthRoute ip :: acc.1, acc.2)

/-- Embeds `EZKRuntime.refresh_children` (lines 146-163): clears the
`refresh` flag, reads the child set, builds a fresh table from the
non-auth IPs absent from it (emitting withdraws for the present ones),
appends the auth route with metric 100, and installs the new table. -/
def refresh_children (c : EZKConf) (s : RuntimeState) (children : List String) :
    RuntimeState × List Event :=
  let acc := reconcileRoutes children c.srv_non_auth_ips
  let table := BGPTable.mk (acc.1 ++ [authRoute c])
  ({ s with refresh := false, bgp_table := table }, acc.2)

/-- The session states the listener can receive, augmented with the INIT
pre-start state (class EZKState, lines 171-172). -/
inductive EZKState where
  | INIT
  | CONNECTED
  | SUSPENDED
  | LOST
deriving DecidableEq, Repr

/-- Embeds the `zk_transition` listener (lines 187-205).  On SUSPENDED it
replaces the table with an empty one and emits a withdraw for every
non-auth IP (metric 200) and then for the auth IP (metric 100); on LOST
it sets `recreate`; on CONNECTED it sets `refresh`. -/
def zk_transition (c : EZKConf) (s : RuntimeState) (st : EZKState) :
    RuntimeState × List Event :=
  match st with
  | EZKState.SUSPENDED =>
      ({ s with bgp_table := BGPTable.mk [] },
       (c.srv_non_auth_ips.map (fun ip => Event.line (withdrawLine (nonAuthRoute ip))))
         ++ [Event.line (withdrawLine (authRoute c))])
  | EZKState.LOST => ({ s with recreate := true }, [])
  | EZKState.CONNECTED => ({ s with refresh := true }, [])
  | EZKState.INIT => (s, [])

/-- Embeds the `zk_watch` child-watch callback (lines 220-225): every
notification sets the `refresh` flag. -/
def zk_watch (s : RuntimeState) : RuntimeState :=
  { s with refresh := true }

/-- The external inputs consumed by one pass of the main loop body: the
health probe outcome, the child set `get_children` would return, and the
outcome of `zk.create` if it is attempted. -/
structure IterInput where
  probe : Bool
  children : List String
  zkCreate : ZkCreateResult
deriving DecidableEq, Repr

/-- Embeds one pass of the main loop body (lines 227-249), after the
short-sleep wait: if `shouldstop` the loop breaks; if the health check
fails the pass is skipped (`continue`); otherwise `create_node` runs when
`recreate` is set (an uncaught exception from it aborts the pass), then
`refresh_children` runs when `refresh` is set, then the whole current
table is advertised. -/
def loopIter (c : EZKConf) (s : RuntimeState) (inp : IterInput) : StepOut :=
  if s.shouldstop then { st := s, events := [], err := none }
  else if inp.probe = false then { st := s, events := [], err := none }
  else
    let co : StepOut :=
      if s.recreate then create_node c s inp.zkCreate
      else { st := s, events := [], err := none }
    match co.err with
    | some msg => { st := co.st, events := co.events, err := some msg }
    | none =>
        let rf : RuntimeState × List Event :=
          if co.st.refresh then refresh_children c co.st inp.children
          else (co.st, [])
        { st := rf.1,
          events := co.events ++ rf.2
            ++ (advertise_routes rf.1.bgp_table).map Event.line,
          err := none }

/-- A happening that can precede the first healthy pass of the control
loop: a session-state transition delivered to the listener, a child-watch
notification, or a loop pass whose health probe failed. -/
inductive PreEvent where
  | transition (st : EZKState)
  | childWatch
  | failedIter (ch : List String) (zk : ZkCreateResult)
deriving DecidableEq, Repr

/-- The effect of one such happening on the runtime flags and table. -/
def applyPre (c : EZKConf) (s : RuntimeState) : PreEvent → RuntimeState
  | PreEvent.transition st => (zk_transition c s st).1
  | PreEvent.childWatch => zk_watch s
  | PreEvent.failedIter ch zk => (loopIter c s (IterInput.mk false ch zk)).st

/-
Helper definitions and lemmas shared by the claim theorems.
-/

/-- The routes the reconciler builds for the non-auth IPs absent from the
child set, in `srv_non_auth_ips` order. -/
def absentRoutes (c : EZKConf) (children : List String) : List Route :=
  (c.srv_non_auth_ips.filter (fun ip => ip ∉ children)).map nonAuthRoute

/-- The withdraw lines the reconciler emits for the non-auth IPs present
in the child set, in `srv_non_auth_ips` order. -/
def presentWithdrawLines (c : EZKConf) (children : List String) : List String :=
  (c.srv_non_auth_ips.filter (fun ip => ip ∈ children)).map
    (fun ip => withdrawLine (nonAuthRoute ip))

theorem reconcileRoutes_eq (children ips : List String) :
    reconcileRoutes children ips =
      ((ips.filter (fun ip => ip ∉ children)).map nonAuthRoute,
       (ips.filter (fun ip => ip ∈ children)).map
         (fun ip => Event.line (withdrawLine (nonAuthRoute ip)))) := by
  induction ips with
  | nil => rfl
  | cons ip rest ih =>
      by_cases h : ip ∈ children <;>
        simp [reconcileRoutes, ih, List.filter_cons, h]

theorem refresh_children_eq (c : EZKConf) (s : RuntimeState) (children : List String) :
    refresh_children c s children =
      ({ s with
          refresh := false,
          bgp_table := BGPTable.mk (absentRoutes c children ++ [authRoute c]) },
       (presentWithdrawLines c children).map Event.line) := by
  simp [refresh_children, reconcileRoutes_eq, absentRoutes, presentWithdrawLines,
    List.map_map, Function.comp]

theorem stdoutOf_line_map (l : List String) :
    stdoutOf (l.map Event.line) = l := by
  induction l with
  | nil => rfl
  | cons x xs ih =>
      simp [stdoutOf, Event.lineOf] at ih ⊢
      exact ih

theorem stdoutOf_append (a b : List Event) :
    stdoutOf (a ++ b) = stdoutOf a ++ stdoutOf b := by
  simp [stdoutOf]

theorem stdoutOf_zkCreate_cons (p : String) (evs : List Event) :
    stdoutOf (Event.zkCreate p :: evs) = stdoutOf evs := by
  simp [stdoutOf, Event.lineOf]

theorem stdoutOf_map_line_comp {α : Type} (g : α → String) (l : List α) :
    stdoutOf (l.map (fun x => Event.line (g x))) = l.map g := by
  induction l with
  | nil => rfl
  | cons x xs ih =>
      simp [stdoutOf, Event.lineOf] at ih ⊢
      exact ih

theorem filterMap_lineOf_line (l : List String) :
    List.filterMap (Event.lineOf ∘ Event.line) l = l := by
  induction l <;> simp_all [Event.lineOf]

theorem filterMap_lineOf_line_comp {α : Type} (g : α → String) (l : List α) :
    List.filterMap (Event.lineOf ∘ Event.line ∘ g) l = l.map g := by
  induction l <;> simp_all [Event.lineOf]

/-- A skipped pass: when `shouldstop` is set or the probe fails, the loop
body does nothing. -/
theorem loopIter_skip (c : EZKConf) (s : RuntimeState) (ch : List String)
    (zk : ZkCreateResult) :
    loopIter c s (IterInput.mk false ch zk) = StepOut.mk s [] none := by
  by_cases h : s.shouldstop <;> simp [loopIter, h]

/-- Healthy pass, `recreate` clear, `refresh` clear: only the advertise
step runs. -/
theorem loopIter_quiet (c : EZKConf) (s : RuntimeState) (ch : List String)
    (zk : ZkCreateResult) (hstop : s.shouldstop = false)
    (hrec : s.recreate = false) (href : s.refresh = false) :
    loopIter c s (IterInput.mk true ch zk) =
      StepOut.mk s ((advertise_routes s.bgp_table).map Event.line) none := by
  simp [loopIter, hstop, hrec, href]

/-- Healthy pass, `recreate` clear, `refresh` set: the reconciler rebuilds
the table, then the advertise step emits it. -/
theorem loopIter_refresh (c : EZKConf) (s : RuntimeState) (ch : List String)
    (zk : ZkCreateResult) (hstop : s.shouldstop = false)
    (hrec : s.recreate = false) (href : s.refresh = true) :
    loopIter c s (IterInput.mk true ch zk) =
      StepOut.mk
        { s with
            refresh := false,
            bgp_table := BGPTable.mk (absentRoutes c ch ++ [authRoute c]) }
        ((presentWithdrawLines c ch).map Event.line
          ++ (advertise_routes (BGPTable.mk (absentRoutes c ch ++ [authRoute c]))).map Event.line)
        none := by
  simp [loopIter, hstop, hrec, href, refresh_children_eq]

/-- Healthy pass, `recreate` set with a successful create, `refresh` set:
the ephemeral is created first, then the reconciler runs, then the
advertise step. -/
theorem loopIter_create_refresh (c : EZKConf) (s : RuntimeState) (ch : List String)
    (hstop : s.shouldstop = false) (hrec : s.recreate = true) (href : s.refresh = true) :
    loopIter c s (IterInput.mk true ch ZkCreateResult.ok) =
      StepOut.mk
        { s with
            recreate := false,
            refresh := false,
            bgp_table := BGPTable.mk (absentRoutes c ch ++ [authRoute c]) }
        (Event.zkCreate (nodePath c)
          :: ((presentWithdrawLines c ch).map Event.line
            ++ (advertise_routes (BGPTable.mk (absentRoutes c ch ++ [authRoute c]))).map Event.line))
        none := by
  simp [loopIter, hstop, hrec, href, create_node, refresh_children_eq]

/-- Healthy pass, `recreate` set with a successful create, `refresh`
clear: the ephemeral is created, then the current table is advertised. -/
theorem loopIter_create_quiet (c : EZKConf) (s : RuntimeState) (ch : List String)
    (hstop : s.shouldstop = false) (hrec : s.recreate = true) (href : s.refresh = false) :
    loopIter c s (IterInput.mk true ch ZkCreateResult.ok) =
      StepOut.mk { s with recreate := false }
        (Event.zkCreate (nodePath c)
          :: (advertise_routes s.bgp_table).map Event.line)
        none := by
  simp [loopIter, hstop, hrec, href, create_node]

theorem strAppendAssoc (a b c : String) : a ++ b ++ c = a ++ (b ++ c) := by
  apply String.ext
  simp [String.data_append]

/-
Claim theorems.
-/

/-- Claim C2: the health probe check returns true if and only if the
configured shell command exits with status 0 within the 1-second
deadline; on timeout the whole process group is killed with SIGKILL and
check returns false; on a non-zero exit the exit code is logged and
check returns false. -/
theorem C2_check_contract (sc : ServiceChecker) (o : ProbeOutcome) :
    ((sc.check o).ok = true ↔ o = ProbeOutcome.exited 0) ∧
    (o = ProbeOutcome.timeout →
      (sc.check o).killedGroup = true ∧ (sc.check o).ok = false) ∧
    (∀ rc : Int, o = ProbeOutcome.exited rc → rc ≠ 0 →
      (sc.check o).loggedExit = some rc ∧ (sc.check o).ok = false) := by
  refine ⟨?_, ?_, ?_⟩
  · cases o with
    | exited rc =>
        by_cases h : rc = 0 <;> simp [ServiceChecker.check, h]
    | timeout => simp [ServiceChecker.check]
  · intro h
    subst h
    simp [ServiceChecker.check]
  · intro rc h hne
    subst h
    simp [ServiceChecker.check, hne]

theorem C2_check_contract_witness :
    ((ServiceChecker.mk "exit 0").check ProbeOutcome.timeout).killedGroup = true ∧
    ((ServiceChecker.mk "exit 0").check (ProbeOutcome.exited 3)).loggedExit = some 3 ∧
    ((ServiceChecker.mk "exit 0").check (ProbeOutcome.exited 0)).ok = true := by
  refine ⟨((C2_check_contract (ServiceChecker.mk "exit 0") ProbeOutcome.timeout).2.1 rfl).1,
    ((C2_check_contract (ServiceChecker.mk "exit 0") (ProbeOutcome.exited 3)).2.2 3 rfl
      (by decide)).1,
    (C2_check_contract (ServiceChecker.mk "exit 0") (ProbeOutcome.exited 0)).1.mpr rfl⟩

/-- Claim C3: on every transition to SUSPENDED the listener emits a
withdraw line for each non-auth IP with metric 200 followed by one for
the auth IP with metric 100, replaces the route table with an empty one,
and leaves the recreate and shouldstop flags unchanged. -/
theorem C3_suspended_flush (c : EZKConf) (s : RuntimeState) :
    (zk_transition c s EZKState.SUSPENDED).2 =
      (c.srv_non_auth_ips.map
        (fun ip => Event.line (withdrawLine (nonAuthRoute ip))))
        ++ [Event.line (withdrawLine (authRoute c))] ∧
    (∀ ip : String, (nonAuthRoute ip).metric = 200) ∧
    (authRoute c).metric = 100 ∧
    (zk_transition c s EZKState.SUSPENDED).1.bgp_table = BGPTable.mk [] ∧
    (zk_transition c s EZKState.SUSPENDED).1.recreate = s.recreate ∧
    (zk_transition c s EZKState.SUSPENDED).1.shouldstop = s.shouldstop :=
  ⟨rfl, fun _ => rfl, rfl, rfl, rfl, rfl⟩

/-- Claim C5: create_node first clears the recreate flag, then attempts
the ephemeral create at exactly zk_path_service/srv_name/srv_auth_ip; on
SessionExpiredError it re-sets recreate and returns normally; any other
exception propagates (with recreate left cleared). -/
theorem C5_create_node_contract (c : EZKConf) (s : RuntimeState) (zk : ZkCreateResult) :
    (create_node c s zk).events =
      [Event.zkCreate (c.zk_path_service ++ "/" ++ c.srv_name ++ "/" ++ c.srv_auth_ip)] ∧
    (zk = ZkCreateResult.ok →
      (create_node c s zk).st.recreate = false ∧ (create_node c s zk).err = none) ∧
    (zk = ZkCreateResult.sessionExpired →
      (create_node c s zk).st.recreate = true ∧ (create_node c s zk).err = none) ∧
    (∀ msg : String, zk = ZkCreateResult.fatal msg →
      (create_node c s zk).err = some msg ∧ (create_node c s zk).st.recreate = false) := by
  refine ⟨?_, ?_, ?_, ?_⟩
  · cases zk <;> rfl
  · intro h; subst h; exact ⟨rfl, rfl⟩
  · intro h; subst h; exact ⟨rfl, rfl⟩
  · intro msg h; subst h; exact ⟨rfl, rfl⟩

theorem C5_create_node_contract_witness :
    (create_node (EZKConf.mk ["zk1:2181"] "/services" "svc" "10.0.0.1"
        ["10.0.0.2"] "exit 0") initRuntime ZkCreateResult.sessionExpired).st.recreate
      = true ∧
    (create_node (EZKConf.mk ["zk1:2181"] "/services" "svc" "10.0.0.1"
        ["10.0.0.2"] "exit 0") initRuntime ZkCreateResult.sessionExpired).events
      = [Event.zkCreate "/services/svc/10.0.0.1"] := by
  refine ⟨((C5_create_node_contract (EZKConf.mk ["zk1:2181"] "/services" "svc" "10.0.0.1"
      ["10.0.0.2"] "exit 0") initRuntime ZkCreateResult.sessionExpired).2.2.1 rfl).1, ?_⟩
  have h := (C5_create_node_contract (EZKConf.mk ["zk1:2181"] "/services" "svc" "10.0.0.1"
      ["10.0.0.2"] "exit 0") initRuntime ZkCreateResult.sessionExpired).1
  simpa using h

/-- Claim C7: an iteration whose health probe fails emits nothing,
attempts no node creation nor reconciliation, and leaves the whole
runtime state (in particular the refresh and recreate flags) exactly as
before. -/
theorem C7_probe_fail_noop (c : EZKConf) (s : RuntimeState) (ch : List String)
    (zk : ZkCreateResult) :
    loopIter c s (IterInput.mk false ch zk) = StepOut.mk s [] none ∧
    (loopIter c s (IterInput.mk false ch zk)).st.refresh = s.refresh ∧
    (loopIter c s (IterInput.mk false ch zk)).st.recreate = s.recreate ∧
    stdoutOf (loopIter c s (IterInput.mk false ch zk)).events = [] ∧
    (∀ p : String, Event.zkCreate p ∉ (loopIter c s (IterInput.mk false ch zk)).events) := by
  have h := loopIter_skip c s ch zk
  refine ⟨h, ?_, ?_, ?_, ?_⟩ <;> simp [h, stdoutOf]

/-- Claim C10: withdraw_route applies the same mandatory-field validation
as add_route: with any of the route prefix, dst or metric keys missing it
raises and writes nothing; with all three present it writes exactly one
withdraw line. -/
theorem C10_withdraw_validation (r : RouteArgs) (t : BGPTable) :
    ((r.pfx = none ∨ r.dst = none ∨ r.metric = none) →
      withdraw_route r = Except.error mandatoryErr) ∧
    (∀ (p d : String) (m : Nat),
      r = RouteArgs.mk (some p) (some d) (some m) →
      withdraw_route r = Except.ok [withdrawLine (Route.mk p d m)]) ∧
    ((∃ e, withdraw_route r = Except.error e) ↔ (∃ e, t.add_route r = Except.error e)) := by
  obtain ⟨p, d, m⟩ := r
  refine ⟨?_, ?_, ?_⟩
  · intro h
    cases p <;> cases d <;> cases m <;> simp_all [withdraw_route]
  · rintro p1 d1 m1 h
    cases h
    rfl
  · cases p <;> cases d <;> cases m <;>
      simp [withdraw_route, BGPTable.add_route]

theorem C10_withdraw_validation_witness :
    withdraw_route (RouteArgs.mk none (some "1.1.1.1") (some 200))
      = Except.error mandatoryErr ∧
    withdraw_route (RouteArgs.mk (some "10.0.0.2") (some "1.1.1.1") (some 200))
      = Except.ok ["withdraw route 10.0.0.2/32 next-hop self med 200"] := by
  refine ⟨(C10_withdraw_validation (RouteArgs.mk none (some "1.1.1.1") (some 200))
      (BGPTable.mk [])).1 (Or.inl rfl), ?_⟩
  have h := (C10_withdraw_validation
      (RouteArgs.mk (some "10.0.0.2") (some "1.1.1.1") (some 200))
      (BGPTable.mk [])).2.1 "10.0.0.2" "1.1.1.1" 200 rfl
  simpa [withdrawLine] using h

theorem countP_nonAuthRoute (ip : String) (l : List String)
    (hnd : l.Nodup) (hin : ip ∈ l) :
    (l.map nonAuthRoute).countP (fun r => r.pfx = ip ∧ r.metric = 200) = 1 := by
  induction l with
  | nil => cases hin
  | cons a rest ih =>
      rw [List.map_cons, List.countP_cons]
      rcases List.mem_cons.mp hin with rfl | h
      · have hnotin : ip ∉ rest := (List.nodup_cons.mp hnd).1
        have hz : (rest.map nonAuthRoute).countP
            (fun r => r.pfx = ip ∧ r.metric = 200) = 0 := by
          rw [List.countP_eq_zero]
          intro r hr
          obtain ⟨b, hb, rfl⟩ := List.mem_map.mp hr
          simp only [nonAuthRoute, decide_eq_true_eq, not_and]
          rintro rfl
          exact absurd hb hnotin
        simp [hz, nonAuthRoute]
        intro b hb heq
        exact absurd (heq ▸ hb) hnotin
      · have hne : a ≠ ip := by
          rintro rfl
          exact absurd h (List.nodup_cons.mp hnd).1
        rw [ih (List.nodup_cons.mp hnd).2 h]
        simp [nonAuthRoute, hne]

/-- Claim C1: in a refresh performed while the health probe passes, the
newly installed table is exactly one metric-200 route per non-auth IP
absent from the child set, in srv_non_auth_ips order, followed by the
auth route with metric 100 as the last entry and nothing else; the
subsequent emission prints one announce line per route in insertion
order. -/
theorem C1_refresh_table_emission (c : EZKConf) (s : RuntimeState)
    (ch : List String) (zk : ZkCreateResult)
    (hstop : s.shouldstop = false) (hrec : s.recreate = false)
    (href : s.refresh = true) (hnd : c.srv_non_auth_ips.Nodup) :
    (loopIter c s (IterInput.mk true ch zk)).st.bgp_table.announce =
      absentRoutes c ch ++ [authRoute c] ∧
    (∀ ip ∈ c.srv_non_auth_ips, ip ∉ ch →
      ((loopIter c s (IterInput.mk true ch zk)).st.bgp_table.announce.countP
        (fun r => r.pfx = ip ∧ r.metric = 200)) = 1) ∧
    (loopIter c s (IterInput.mk true ch zk)).st.bgp_table.announce.getLast? =
      some (authRoute c) ∧
    (authRoute c).metric = 100 ∧
    (loopIter c s (IterInput.mk true ch zk)).events =
      ((presentWithdrawLines c ch).map Event.line)
        ++ ((loopIter c s (IterInput.mk true ch zk)).st.bgp_table.announce.map
              (fun r => Event.line (announceLine r))) := by
  have h := loopIter_refresh c s ch zk hstop hrec href
  refine ⟨by rw [h], ?_, ?_, rfl, ?_⟩
  · intro ip hin hnotin
    rw [h]
    show ((absentRoutes c ch ++ [authRoute c]).countP
      (fun r => r.pfx = ip ∧ r.metric = 200)) = 1
    rw [List.countP_append]
    have h1 : (absentRoutes c ch).countP (fun r => r.pfx = ip ∧ r.metric = 200) = 1 := by
      apply countP_nonAuthRoute
      · exact hnd.filter _
      · simp [List.mem_filter, hin, hnotin]
    have h2 : ([authRoute c].countP (fun r => r.pfx = ip ∧ r.metric = 200)) = 0 := by
      simp [authRoute]
    rw [h1, h2]
  · rw [h]
    show (absentRoutes c ch ++ [authRoute c]).getLast? = some (authRoute c)
    simp
  · rw [h]
    simp [advertise_routes, BGPTable.get_routes, List.map_map, Function.comp]

theorem C1_refresh_table_emission_witness :
    (loopIter (EZKConf.mk ["zk1:2181"] "/services" "svc" "10.0.0.1"
        ["10.0.0.2", "10.0.0.3"] "exit 0")
      (RuntimeState.mk (BGPTable.mk []) true false false)
      (IterInput.mk true ["10.0.0.3"] ZkCreateResult.ok)).st.bgp_table.announce =
      absentRoutes (EZKConf.mk ["zk1:2181"] "/services" "svc" "10.0.0.1"
        ["10.0.0.2", "10.0.0.3"] "exit 0") ["10.0.0.3"]
        ++ [authRoute (EZKConf.mk ["zk1:2181"] "/services" "svc" "10.0.0.1"
            ["10.0.0.2", "10.0.0.3"] "exit 0")] ∧
    ((loopIter (EZKConf.mk ["zk1:2181"] "/services" "svc" "10.0.0.1"
        ["10.0.0.2", "10.0.0.3"] "exit 0")
      (RuntimeState.mk (BGPTable.mk []) true false false)
      (IterInput.mk true ["10.0.0.3"] ZkCreateResult.ok)).st.bgp_table.announce.countP
        (fun r => r.pfx = "10.0.0.2" ∧ r.metric = 200)) = 1 := by
  refine ⟨(C1_refresh_table_emission _ _ _ _ rfl rfl rfl (by decide)).1, ?_⟩
  exact (C1_refresh_table_emission (EZKConf.mk ["zk1:2181"] "/services" "svc" "10.0.0.1"
      ["10.0.0.2", "10.0.0.3"] "exit 0")
      (RuntimeState.mk (BGPTable.mk []) true false false)
      ["10.0.0.3"] ZkCreateResult.ok rfl rfl rfl (by decide)).2.1
    "10.0.0.2" (by decide) (by decide)

theorem withdrawLine_nonAuth (ip : String) :
    withdrawLine (nonAuthRoute ip) =
      "withdraw route " ++ ip ++ "/32 next-hop self med 200" := by
  show "withdraw route " ++ ip ++ "/32 next-hop self med "
      ++ toString (200 : Nat) = _
  rw [strAppendAssoc ("withdraw route " ++ ip)]
  congr 1

/-- Claim C4: every non-auth IP present in the child set at refresh time
gets a withdraw line with metric 200 in that same iteration, independent
of what this node previously announced, and no route for that IP is
added to the new table. -/
theorem C4_present_ip_withdrawn (c : EZKConf) (s : RuntimeState)
    (ch : List String) (zk : ZkCreateResult) (ip : String)
    (hstop : s.shouldstop = false) (hrec : s.recreate = false)
    (href : s.refresh = true) (hin : ip ∈ c.srv_non_auth_ips) (hch : ip ∈ ch) :
    Event.line ("withdraw route " ++ ip ++ "/32 next-hop self med 200")
      ∈ (loopIter c s (IterInput.mk true ch zk)).events ∧
    (ip ≠ c.srv_auth_ip →
      ∀ r ∈ (loopIter c s (IterInput.mk true ch zk)).st.bgp_table.announce,
        r.pfx ≠ ip) ∧
    (∀ t : BGPTable,
      (loopIter c { s with bgp_table := t } (IterInput.mk true ch zk)).events =
        (loopIter c s (IterInput.mk true ch zk)).events) := by
  have h := loopIter_refresh c s ch zk hstop hrec href
  refine ⟨?_, ?_, ?_⟩
  · rw [h, ← withdrawLine_nonAuth]
    show Event.line (withdrawLine (nonAuthRoute ip)) ∈
      (presentWithdrawLines c ch).map Event.line ++ _
    apply List.mem_append_left
    apply List.mem_map_of_mem
    apply List.mem_map_of_mem
    simp [List.mem_filter, hin, hch]
  · intro hne r hr
    rw [h] at hr
    show r.pfx ≠ ip
    rcases List.mem_append.mp hr with h1 | h1
    · obtain ⟨b, hb, rfl⟩ := List.mem_map.mp h1
      have hbch : b ∉ ch := by
        have := (List.mem_filter.mp hb).2
        simpa using this
      simp only [nonAuthRoute]
      rintro rfl
      exact absurd hch hbch
    · have : r = authRoute c := by simpa using h1
      subst this
      simpa [authRoute] using fun hEq => hne hEq.symm
  · intro t
    have h2 := loopIter_refresh c { s with bgp_table := t } ch zk hstop hrec href
    rw [h, h2]

theorem C4_present_ip_withdrawn_witness :
    Event.line "withdraw route 10.0.0.2/32 next-hop self med 200"
      ∈ (loopIter (EZKConf.mk ["zk1:2181"] "/services" "svc" "10.0.0.1"
          ["10.0.0.2", "10.0.0.3"] "exit 0")
        (RuntimeState.mk (BGPTable.mk []) true false false)
        (IterInput.mk true ["10.0.0.2"] ZkCreateResult.ok)).events ∧
    (∀ r ∈ (loopIter (EZKConf.mk ["zk1:2181"] "/services" "svc" "10.0.0.1"
          ["10.0.0.2", "10.0.0.3"] "exit 0")
        (RuntimeState.mk (BGPTable.mk []) true false false)
        (IterInput.mk true ["10.0.0.2"] ZkCreateResult.ok)).st.bgp_table.announce,
      r.pfx ≠ "10.0.0.2") := by
  have h := C4_present_ip_withdrawn
    (EZKConf.mk ["zk1:2181"] "/services" "svc" "10.0.0.1"
      ["10.0.0.2", "10.0.0.3"] "exit 0")
    (RuntimeState.mk (BGPTable.mk []) true false false)
    ["10.0.0.2"] ZkCreateResult.ok "10.0.0.2" rfl rfl rfl
    (by decide) (by decide)
  exact ⟨by simpa using h.1, h.2.1 (by decide)⟩

/-- Claim C8: in every healthy iteration the recreate flag is handled
before the refresh flag, so when recreate is set and the create succeeds
the trace starts with the ephemeral-create call and everything after it,
the refresh-derived announcements included, is stdout output. -/
theorem C8_recreate_before_refresh (c : EZKConf) (s : RuntimeState) (ch : List String)
    (hstop : s.shouldstop = false) (hrec : s.recreate = true) :
    ∃ rest, (loopIter c s (IterInput.mk true ch ZkCreateResult.ok)).events
        = Event.zkCreate (nodePath c) :: rest
      ∧ ∀ e ∈ rest, ∃ l, e = Event.line l := by
  by_cases href : s.refresh = true
  · refine ⟨(presentWithdrawLines c ch).map Event.line
      ++ (advertise_routes (BGPTable.mk (absentRoutes c ch ++ [authRoute c]))).map
          Event.line, ?_, ?_⟩
    · rw [loopIter_create_refresh c s ch hstop hrec href]
    · intro e he
      rcases List.mem_append.mp he with h1 | h1 <;>
        obtain ⟨l, _, rfl⟩ := List.mem_map.mp h1 <;>
        exact ⟨l, rfl⟩
  · have href' : s.refresh = false := by simpa using href
    refine ⟨(advertise_routes s.bgp_table).map Event.line, ?_, ?_⟩
    · rw [loopIter_create_quiet c s ch hstop hrec href']
    · intro e he
      obtain ⟨l, _, rfl⟩ := List.mem_map.mp he
      exact ⟨l, rfl⟩

theorem C8_recreate_before_refresh_witness :
    ∃ rest, (loopIter (EZKConf.mk ["zk1:2181"] "/services" "svc" "10.0.0.1"
        ["10.0.0.2"] "exit 0")
      (RuntimeState.mk (BGPTable.mk []) true true false)
      (IterInput.mk true [] ZkCreateResult.ok)).events
        = Event.zkCreate (nodePath (EZKConf.mk ["zk1:2181"] "/services" "svc"
            "10.0.0.1" ["10.0.0.2"] "exit 0")) :: rest
      ∧ ∀ e ∈ rest, ∃ l, e = Event.line l :=
  C8_recreate_before_refresh
    (EZKConf.mk ["zk1:2181"] "/services" "svc" "10.0.0.1" ["10.0.0.2"] "exit 0")
    (RuntimeState.mk (BGPTable.mk []) true true false) [] rfl rfl

theorem applyPre_preserves (c : EZKConf) (s : RuntimeState) (e : PreEvent)
    (h1 : s.refresh = true) (h2 : s.recreate = true) (h3 : s.shouldstop = false) :
    (applyPre c s e).refresh = true ∧ (applyPre c s e).recreate = true ∧
    (applyPre c s e).shouldstop = false := by
  cases e with
  | transition st => cases st <;> simp [applyPre, zk_transition, h1, h2, h3]
  | childWatch => simp [applyPre, zk_watch, h1, h2, h3]
  | failedIter ch zk => simp [applyPre, loopIter_skip, h1, h2, h3]

theorem foldl_applyPre_preserves (c : EZKConf) (evs : List PreEvent)
    (s : RuntimeState)
    (h1 : s.refresh = true) (h2 : s.recreate = true) (h3 : s.shouldstop = false) :
    (evs.foldl (applyPre c) s).refresh = true ∧
    (evs.foldl (applyPre c) s).recreate = true ∧
    (evs.foldl (applyPre c) s).shouldstop = false := by
  induction evs generalizing s with
  | nil => exact ⟨h1, h2, h3⟩
  | cons e rest ih =>
      obtain ⟨a, b, d⟩ := applyPre_preserves c s e h1 h2 h3
      exact ih (applyPre c s e) a b d

/-- Claim C9 (implicit): at startup the refresh and recreate flags are
both true and shouldstop is false, and they stay that way through any
sequence of session transitions, child-watch notifications and
failed-probe passes, so the first pass whose probe succeeds attempts the
ephemeral create and performs a full reconciliation. -/
theorem C9_init_flags_first_pass (c : EZKConf) (evs : List PreEvent)
    (ch : List String) :
    initRuntime.refresh = true ∧ initRuntime.recreate = true ∧
    initRuntime.shouldstop = false ∧
    (evs.foldl (applyPre c) initRuntime).refresh = true ∧
    (evs.foldl (applyPre c) initRuntime).recreate = true ∧
    (∃ rest,
      (loopIter c (evs.foldl (applyPre c) initRuntime)
        (IterInput.mk true ch ZkCreateResult.ok)).events
        = Event.zkCreate (nodePath c) :: rest) ∧
    (loopIter c (evs.foldl (applyPre c) initRuntime)
        (IterInput.mk true ch ZkCreateResult.ok)).st.bgp_table
      = BGPTable.mk (absentRoutes c ch ++ [authRoute c]) := by
  obtain ⟨h1, h2, h3⟩ := foldl_applyPre_preserves c evs initRuntime rfl rfl rfl
  have h := loopIter_create_refresh c (evs.foldl (applyPre c) initRuntime) ch h3 h2 h1
  refine ⟨rfl, rfl, rfl, h1, h2, ?_, ?_⟩
  · rw [h]
    exact ⟨_, rfl⟩
  · rw [h]

/-- Claim C6 counterexample: with auth IP 10.0.0.1, non-auth IPs
[10.0.0.2], child set [10.0.0.2] unchanged, a passing probe in both
passes and the refresh flag raised before the first pass, the first
batch contains a withdraw line for 10.0.0.2 that the second batch lacks,
so two consecutive iterations with an unchanged child set and a passing
probe do not always emit identical batches. -/
theorem C6_counterexample :
    stdoutOf (loopIter
        (EZKConf.mk ["zk1:2181"] "/services" "svc" "10.0.0.1" ["10.0.0.2"] "exit 0")
        (RuntimeState.mk (BGPTable.mk []) true false false)
        (IterInput.mk true ["10.0.0.2"] ZkCreateResult.ok)).events ≠
      stdoutOf (loopIter
        (EZKConf.mk ["zk1:2181"] "/services" "svc" "10.0.0.1" ["10.0.0.2"] "exit 0")
        (loopIter
          (EZKConf.mk ["zk1:2181"] "/services" "svc" "10.0.0.1" ["10.0.0.2"] "exit 0")
          (RuntimeState.mk (BGPTable.mk []) true false false)
          (IterInput.mk true ["10.0.0.2"] ZkCreateResult.ok)).st
        (IterInput.mk true ["10.0.0.2"] ZkCreateResult.ok)).events := by
  decide

/-- Claim C6 as amended: over two consecutive passes with an unchanged
child set, a passing probe and successful ephemeral creation, the second
batch is the announce portion of the first: the first batch equals the
withdraw lines for the non-auth IPs present in the child set (when a
refresh was pending, nothing otherwise) followed by exactly the second
batch; in particular the two batches are identical whenever no non-auth
IP is present in the child set. -/
theorem C6_consecutive_batches (c : EZKConf) (s : RuntimeState) (ch : List String)
    (hstop : s.shouldstop = false) :
    (stdoutOf (loopIter c s (IterInput.mk true ch ZkCreateResult.ok)).events =
      (if s.refresh then presentWithdrawLines c ch else [])
        ++ stdoutOf (loopIter c
            (loopIter c s (IterInput.mk true ch ZkCreateResult.ok)).st
            (IterInput.mk true ch ZkCreateResult.ok)).events) ∧
    (presentWithdrawLines c ch = [] →
      stdoutOf (loopIter c s (IterInput.mk true ch ZkCreateResult.ok)).events =
        stdoutOf (loopIter c
            (loopIter c s (IterInput.mk true ch ZkCreateResult.ok)).st
            (IterInput.mk true ch ZkCreateResult.ok)).events) := by
  have quiet : ∀ s1 : RuntimeState, s1.shouldstop = false → s1.recreate = false →
      s1.refresh = false →
      stdoutOf (loopIter c s1 (IterInput.mk true ch ZkCreateResult.ok)).events
        = advertise_routes s1.bgp_table := by
    intro s1 a b d
    rw [loopIter_quiet c s1 ch ZkCreateResult.ok a b d]
    exact stdoutOf_line_map _
  have main : stdoutOf (loopIter c s (IterInput.mk true ch ZkCreateResult.ok)).events =
      (if s.refresh then presentWithdrawLines c ch else [])
        ++ stdoutOf (loopIter c
            (loopIter c s (IterInput.mk true ch ZkCreateResult.ok)).st
            (IterInput.mk true ch ZkCreateResult.ok)).events := by
    by_cases hrec : s.recreate = true
    · by_cases href : s.refresh = true
      · have h := loopIter_create_refresh c s ch hstop hrec href
        have h2 := quiet (loopIter c s (IterInput.mk true ch ZkCreateResult.ok)).st
          (by rw [h]; exact hstop) (by rw [h]) (by rw [h])
        rw [h2, h]
        simp [stdoutOf_zkCreate_cons, stdoutOf_append, stdoutOf_line_map, href,
          advertise_routes, BGPTable.get_routes, stdoutOf_map_line_comp,
          filterMap_lineOf_line, filterMap_lineOf_line_comp,
          stdoutOf, Event.lineOf]
      · have href' : s.refresh = false := by simpa using href
        have h := loopIter_create_quiet c s ch hstop hrec href'
        have h2 := quiet (loopIter c s (IterInput.mk true ch ZkCreateResult.ok)).st
          (by rw [h]; exact hstop) (by rw [h]) (by rw [h]; exact href')
        rw [h2, h]
        simp [stdoutOf_zkCreate_cons, stdoutOf_line_map, href',
          advertise_routes, BGPTable.get_routes, stdoutOf_map_line_comp,
          filterMap_lineOf_line, filterMap_lineOf_line_comp,
          stdoutOf, Event.lineOf]
    · have hrec' : s.recreate = false := by simpa using hrec
      by_cases href : s.refresh = true
      · have h := loopIter_refresh c s ch ZkCreateResult.ok hstop hrec' href
        have h2 := quiet (loopIter c s (IterInput.mk true ch ZkCreateResult.ok)).st
          (by rw [h]; exact hstop) (by rw [h]; exact hrec') (by rw [h])
        rw [h2, h]
        simp [stdoutOf_append, stdoutOf_line_map, href,
          advertise_routes, BGPTable.get_routes, stdoutOf_map_line_comp,
          filterMap_lineOf_line, filterMap_lineOf_line_comp,
          stdoutOf, Event.lineOf]
      · have href' : s.refresh = false := by simpa using href
        have h := loopIter_quiet c s ch ZkCreateResult.ok hstop hrec' href'
        have h2 := quiet (loopIter c s (IterInput.mk true ch ZkCreateResult.ok)).st
          (by rw [h]; exact hstop) (by rw [h]; exact hrec') (by rw [h]; exact href')
        rw [h2, h]
        simp [stdoutOf_line_map, href',
          advertise_routes, BGPTable.get_routes, stdoutOf_map_line_comp,
          filterMap_lineOf_line, filterMap_lineOf_line_comp,
          stdoutOf, Event.lineOf]
  refine ⟨main, fun hempty => ?_⟩
  rw [main, hempty]
  cases s.refresh <;> simp

theorem C6_consecutive_batches_witness :
    stdoutOf (loopIter
        (EZKConf.mk ["zk1:2181"] "/services" "svc" "10.0.0.1" ["10.0.0.2"] "exit 0")
        (RuntimeState.mk (BGPTable.mk []) true false false)
        (IterInput.mk true [] ZkCreateResult.ok)).events =
      stdoutOf (loopIter
        (EZKConf.mk ["zk1:2181"] "/services" "svc" "10.0.0.1" ["10.0.0.2"] "exit 0")
        (loopIter
          (EZKConf.mk ["zk1:2181"] "/services" "svc" "10.0.0.1" ["10.0.0.2"] "exit 0")
          (RuntimeState.mk (BGPTable.mk []) true false false)
          (IterInput.mk true [] ZkCreateResult.ok)).st
        (IterInput.mk true [] ZkCreateResult.ok)).events :=
  (C6_consecutive_batches
    (EZKConf.mk ["zk1:2181"] "/services" "svc" "10.0.0.1" ["10.0.0.2"] "exit 0")
    (RuntimeState.mk (BGPTable.mk []) true false false) [] rfl).2 (by decide)
